import Mathlib

/-!
Shallow embedding of the Seat Cover QA automation script
(src/shopify_qa.py, class SeatCoverQA) and proofs about it.

The script drives a Playwright page through a purchase funnel.  Its
observable behaviour, for the properties verified here, is the ordered
sequence of side effects it performs on the long-lived SeatCoverQA
object and on the browser resource: screenshot capture attempts
(take_screenshot), logged issues (log_issue) and the final
browser.close().  Page interactions themselves (element lookups,
visibility checks, clicks, evaluate calls) are inputs: the page decides
how each primitive behaves, so the embedding abstracts the page as an
environment assigning an outcome to each primitive operation, and every
function of the script becomes a pure Lean function from that
environment (plus its explicit arguments) to its return value and the
list of effects it performs, in order.
-/

namespace ShopifyQA

/-- One observable effect of a QA session on the SeatCoverQA object or
the browser resource: a take_screenshot call (with its step name), a
log_issue call (severity, category and description of the issue dict),
or browser.close(). -/
inductive Effect
  | shot (name : String)
  | issue (sev cat desc : String)
  | close
deriving DecidableEq

/-- Outcome of one candidate selector inside click_first_working
(src/shopify_qa.py lines 88-121).  The whole per-candidate body runs in
one try/except, so: raises covers page.wait_for_selector raising
(timeout), el.is_visible raising, and el.scroll_into_view_if_needed
raising - all of which happen before the highlight screenshot;
notFound is wait_for_selector returning no element (line 92);
notVisible is a found element failing the is_visible check (line 97);
clickFails means the element was found and visible, the highlight
screenshot was taken (line 110), and then el.click raised (element
detached or click timeout) so the loop moved on; ok is the successful
path: lookup, visibility check, screenshot and click all succeed. -/
inductive SelStep
  | raises | notFound | notVisible | clickFails | ok
deriving DecidableEq

/-- Embedding of SeatCoverQA.click_first_working (lines 83-123): try
selectors in order, return (clicked, used_selector) for the first one
whose whole attempt succeeds, and (False, None) when the list is
exhausted.  The third component is the list of effects performed: one
highlight screenshot for every candidate that reached the screenshot
(outcome clickFails or ok).  The per-candidate try/except means a
failing candidate never propagates an error; this is embedded by the
function being total in the environment. -/
def click_first_working (env : String → SelStep) (pfx : String) :
    List String → Bool × Option String × List Effect
  | [] => (false, none, [])
  | s :: rest =>
    match env s with
    | SelStep.ok => (true, some s, [Effect.shot (pfx ++ "_highlighted")])
    | SelStep.clickFails =>
        let r := click_first_working env pfx rest
        (r.1, r.2.1, Effect.shot (pfx ++ "_highlighted") :: r.2.2)
    | _ => click_first_working env pfx rest

/-- A candidate selector works when its whole attempt succeeds: the
bounded lookup returns an element, the element is visible, and the
forced click does not raise (the script treats a click-time raise -
spec: element detached - as a lookup failure and falls through). -/
def selWorks (env : String → SelStep) (s : String) : Prop :=
  env s = SelStep.ok

instance (env : String → SelStep) (s : String) : Decidable (selWorks env s) := by
  unfold selWorks; infer_instance

theorem cfw_first_aux (env : String → SelStep)
    (pfx s : String) (pre post : List String)
    (hpre : ∀ x ∈ pre, ¬ selWorks env x) (hs : selWorks env s) :
    (click_first_working env pfx (pre ++ s :: post)).1 = true ∧
    (click_first_working env pfx (pre ++ s :: post)).2.1 = some s := by
  induction pre with
  | nil =>
      unfold selWorks at hs
      simp [click_first_working, hs]
  | cons a as ih =>
      have ha : ¬ selWorks env a := hpre a (by simp)
      have ih := ih (fun x hx => hpre x (by simp [hx]))
      cases hc : env a <;>
        simp_all [click_first_working, selWorks]

/-- Claim C1: for every ordered list of locator candidates,
click_first_working returns the first candidate in list order whose
lookup succeeds and that satisfies the visibility predicate (the first
working candidate), and never returns a later candidate once an earlier
one has matched, even if multiple candidates in the suffix would
match: the result does not depend on the suffix after the first
working candidate. -/
theorem click_first_working_returns_first (env : String → SelStep)
    (pfx s : String) (pre post : List String)
    (hpre : ∀ x ∈ pre, ¬ selWorks env x) (hs : selWorks env s) :
    (click_first_working env pfx (pre ++ s :: post)).1 = true ∧
    (click_first_working env pfx (pre ++ s :: post)).2.1 = some s :=
  cfw_first_aux env pfx s pre post hpre hs

/-- Witness for C1: candidate "a" fails (lookup raises), candidates
"b" and "c" would both match, and the resolver returns "b", the
earlier one. -/
def envC1 : String → SelStep := fun s =>
  if s = "a" then SelStep.raises
  else if s = "b" then SelStep.ok
  else if s = "c" then SelStep.ok
  else SelStep.notFound

theorem click_first_working_returns_first_witness :
    ((∀ x ∈ ["a"], ¬ selWorks envC1 x) ∧ selWorks envC1 "b") ∧
    (click_first_working envC1 "04a_seat_option" (["a"] ++ "b" :: ["c"])).1 = true ∧
    (click_first_working envC1 "04a_seat_option" (["a"] ++ "b" :: ["c"])).2.1 = some "b" :=
  ⟨⟨by decide, by decide⟩,
   click_first_working_returns_first envC1 "04a_seat_option" "b" ["a"] ["c"]
     (by decide) (by decide)⟩

theorem cfw_none_aux (env : String → SelStep)
    (pfx : String) (l : List String) (h : ∀ x ∈ l, ¬ selWorks env x) :
    (click_first_working env pfx l).1 = false ∧
    (click_first_working env pfx l).2.1 = none := by
  induction l with
  | nil => simp [click_first_working]
  | cons a as ih =>
      have ha := h a (by simp)
      have ih := ih (fun x hx => h x (by simp [hx]))
      cases hc : env a <;>
        simp_all [click_first_working, selWorks]

/-- Claim C2: when no candidate in the list works - every candidate
either raises at lookup (element absent, detached, timeout), is not
found, is not visible, or fails at the click - click_first_working
returns the failure pair (False, None).  The per-candidate try/except
(lines 119-121) means no error is propagated to the caller: the
embedding is a total function of the environment, and exhaustion yields
(false, none). -/
theorem click_first_working_exhausted (env : String → SelStep)
    (pfx : String) (l : List String) (h : ∀ x ∈ l, ¬ selWorks env x) :
    (click_first_working env pfx l).1 = false ∧
    (click_first_working env pfx l).2.1 = none :=
  cfw_none_aux env pfx l h

/-- Witness for C2: an environment exercising every failure mode
(raise, not found, not visible, click raises) on a four-candidate
list; the resolver returns (False, None). -/
def envC2 : String → SelStep := fun s =>
  if s = "a" then SelStep.raises
  else if s = "b" then SelStep.notFound
  else if s = "c" then SelStep.notVisible
  else SelStep.clickFails

theorem click_first_working_exhausted_witness :
    (∀ x ∈ ["a", "b", "c", "d"], ¬ selWorks envC2 x) ∧
    (click_first_working envC2 "04a_seat_option" ["a", "b", "c", "d"]).1 = false ∧
    (click_first_working envC2 "04a_seat_option" ["a", "b", "c", "d"]).2.1 = none :=
  ⟨by decide,
   click_first_working_exhausted envC2 "04a_seat_option" ["a", "b", "c", "d"] (by decide)⟩

/-- An exception raised by a Playwright page primitive (timeout,
detached element, navigation failure...). -/
structure PwErr where
  msg : String
deriving DecidableEq

/-- The page environment seen by dismiss_overlays (lines 31-81): the
behaviour of page.query_selector on each close selector, el.is_visible
and el.click on element handles (abstracted as numbers), and the
chat-widget-hiding page.evaluate call, which returns how many widgets
it hid (its JS body loops over the chat fingerprints and mutates
matching nodes; with no matching nodes it mutates nothing). -/
structure OverlayEnv where
  query : String → Except PwErr (Option Nat)
  visible : Nat → Except PwErr Bool
  click : Nat → Except PwErr Unit
  evalHide : Except PwErr Nat

/-- The close selectors tried by dismiss_overlays (lines 38-47). -/
def close_selectors : List String :=
  ["button[aria-label=\"Close\"]",
   "button[aria-label=\"close\"]",
   "button:has-text(\"Close\")",
   "button:has-text(\"CLOSE\")",
   "button:has-text(\"×\")",
   "button:has-text(\"✕\")",
   "[role=\"dialog\"] button[aria-label=\"Close\"]",
   "[role=\"dialog\"] button:has-text(\"Close\")"]

/-- What dismiss_overlays observably did: the close selectors whose
element was found, visible, and clicked without raising, and the
number of chat widgets hidden by the evaluate call (0 when the
evaluate raised). -/
structure DismissTrace where
  clicks : List String
  hidden : Nat
deriving DecidableEq

/-- One iteration of the close-selector loop of dismiss_overlays
(lines 49-56), without its try/except: query the selector, and if an
element came back and is visible, click it.  Any raise from the
primitives propagates out of this helper (to be caught by the caller,
as in the source). -/
def try_close_one (env : OverlayEnv) (sel : String) :
    Except PwErr (Option String) := do
  match ← env.query sel with
  | none => pure none
  | some el =>
    if ← env.visible el then do
      env.click el
      pure (some sel)
    else
      pure none

/-- Embedding of SeatCoverQA.dismiss_overlays (lines 31-81).  Each
close-selector attempt runs inside try/except: pass (the match on the
Except result), and the chat-hiding evaluate runs inside its own
try/except: pass, so the function always returns an ok trace to its
caller no matter how the page primitives behave. -/
def dismiss_overlays (env : OverlayEnv) : Except PwErr DismissTrace :=
  let clicks := close_selectors.foldr
    (fun sel acc =>
      match try_close_one env sel with
      | Except.ok (some s) => s :: acc
      | _ => acc) []
  let hidden :=
    match env.evalHide with
    | Except.ok n => n
    | Except.error _ => 0
  Except.ok ⟨clicks, hidden⟩

deriving instance DecidableEq for Except

/-- No overlay is present on the page: every close selector finds no
element (query returns None without raising) and the chat-hiding
evaluate finds nothing to hide. -/
def NoOverlays (env : OverlayEnv) : Prop :=
  (∀ sel ∈ close_selectors, env.query sel = Except.ok none) ∧
  env.evalHide = Except.ok 0

instance (env : OverlayEnv) : Decidable (NoOverlays env) := by
  unfold NoOverlays; infer_instance

theorem dismiss_clicks_nil (env : OverlayEnv) (l : List String)
    (h : ∀ sel ∈ l, env.query sel = Except.ok none) :
    l.foldr (fun sel acc =>
      match try_close_one env sel with
      | Except.ok (some s) => s :: acc
      | _ => acc) [] = [] := by
  induction l with
  | nil => rfl
  | cons a as ih =>
      have ha := h a (by simp)
      have ih := ih (fun x hx => h x (by simp [hx]))
      have hta : try_close_one env a = Except.ok none := by
        simp [try_close_one, ha, bind, Except.bind, pure, Except.pure]
      simp only [List.foldr_cons, hta]
      exact ih

/-- Claim C7: for every page state - including one where every
primitive raises, and including an empty DOM or a page with no
overlays present - dismiss_overlays returns control to its caller
without raising (its result is always ok), and when no overlays are
present it is an observable no-op: nothing is clicked and nothing is
hidden. -/
theorem dismiss_overlays_never_raises (env : OverlayEnv) :
    (∃ t, dismiss_overlays env = Except.ok t) ∧
    (NoOverlays env → dismiss_overlays env = Except.ok ⟨[], 0⟩) := by
  refine ⟨⟨_, rfl⟩, fun h => ?_⟩
  unfold dismiss_overlays
  rw [dismiss_clicks_nil env close_selectors h.1, h.2]

/-- Witness environment for C7: an empty DOM - every query returns no
element without raising, the element primitives raise if ever reached,
and the chat-hiding evaluate finds nothing. -/
def envC7 : OverlayEnv :=
  { query := fun _ => Except.ok none
    visible := fun _ => Except.error ⟨"detached"⟩
    click := fun _ => Except.error ⟨"detached"⟩
    evalHide := Except.ok 0 }

theorem dismiss_overlays_never_raises_witness :
    NoOverlays envC7 ∧ dismiss_overlays envC7 = Except.ok ⟨[], 0⟩ :=
  ⟨by decide, (dismiss_overlays_never_raises envC7).2 (by decide)⟩

/-- An issue dict as appended by log_issue (lines 748-755): severity,
category, the issue description, and the screenshot field, which every
call site fills with the current screenshot counter. -/
structure IssueRec where
  sev : String
  cat : String
  desc : String
  shotRef : Nat
deriving DecidableEq

/-- The mutable state of the SeatCoverQA object plus the browser
resource: the screenshot counter, the numbers of the screenshot files
actually written (in write order), the issues list, and whether
browser.close() has run for the current session. -/
structure RunState where
  counter : Nat
  shots : List Nat
  issues : List IssueRec
  closed : Bool
deriving DecidableEq

/-- SeatCoverQA.__init__ (lines 24-29): counter 0, no issues; the run
starts with no files written and no browser closed. -/
def initState : RunState := ⟨0, [], [], false⟩

/-- Embedding of SeatCoverQA.take_screenshot (lines 730-746).  The
counter is incremented first (line 733); then page.screenshot is
attempted: on success a file numbered with the new counter value is
written and its path returned; on a raise the except block returns
None and the increment is not undone, so the counter counts attempts,
not files.  The whole body runs inside try/except, so the method never
raises: it is total in the capture outcome captureOk. -/
def take_screenshot (captureOk : Bool) (name : String) (s : RunState) :
    RunState × Option String :=
  let c := s.counter + 1
  if captureOk then
    ({ s with counter := c, shots := s.shots ++ [c] },
     some (toString c ++ "_" ++ name ++ ".png"))
  else
    ({ s with counter := c }, none)

/-- Claim C10: every take_screenshot call increments the counter by
exactly one whatever the capture outcome; when the underlying capture
fails it returns None while the counter keeps its incremented value
and no file is written, so the counter counts attempts rather than
files; when the capture succeeds a file path is returned. -/
theorem take_screenshot_counts_attempts (captureOk : Bool) (name : String)
    (s : RunState) :
    ((take_screenshot captureOk name s).1.counter = s.counter + 1) ∧
    (captureOk = false →
      (take_screenshot captureOk name s).2 = none ∧
      (take_screenshot captureOk name s).1.shots = s.shots) ∧
    (captureOk = true →
      ∃ f, (take_screenshot captureOk name s).2 = some f) := by
  cases captureOk <;> simp [take_screenshot]

theorem take_screenshot_counts_attempts_witness :
    (take_screenshot false "01_initial_page_load" initState).1.counter =
      initState.counter + 1 ∧
    (take_screenshot false "01_initial_page_load" initState).2 = none ∧
    (take_screenshot false "01_initial_page_load" initState).1.shots =
      initState.shots ∧
    (∃ f, (take_screenshot true "01_initial_page_load" initState).2 = some f) :=
  ⟨(take_screenshot_counts_attempts false "01_initial_page_load" initState).1,
   ((take_screenshot_counts_attempts false "01_initial_page_load" initState).2.1 rfl).1,
   ((take_screenshot_counts_attempts false "01_initial_page_load" initState).2.1 rfl).2,
   (take_screenshot_counts_attempts true "01_initial_page_load" initState).2.2 rfl⟩

/-- Apply one session effect to the run state.  cap is the capture
oracle: for a screenshot attempt it decides whether page.screenshot
succeeds for the attempt number about to be used.  An issue records
the current counter as its screenshot field, exactly as every
log_issue call site formats self.screenshot_counter into the dict. -/
def applyE (cap : Nat → Bool) (s : RunState) : Effect → RunState
  | Effect.shot name => (take_screenshot (cap (s.counter + 1)) name s).1
  | Effect.issue sev cat desc =>
      { s with issues := s.issues ++ [⟨sev, cat, desc, s.counter⟩] }
  | Effect.close => { s with closed := true }

/-- Run a whole effect list over the state, in order. -/
def applyAll (cap : Nat → Bool) (effs : List Effect) (s : RunState) : RunState :=
  effs.foldl (applyE cap) s

/-- Number of screenshot attempts in an effect list. -/
def countShots (effs : List Effect) : Nat :=
  effs.countP fun e =>
    match e with
    | Effect.shot _ => true
    | _ => false

/-- The issues of an effect trace, as (severity, category, description)
triples, in emission order. -/
def issuesOf (effs : List Effect) : List (String × String × String) :=
  effs.filterMap fun e =>
    match e with
    | Effect.issue sev cat desc => some (sev, cat, desc)
    | _ => none

/-- Seat option selectors (lines 228-237). -/
def seat_selectors : List String :=
  ["label[for=\"btn_2614198370596\"]",
   "input#btn_2614198370596",
   "input[value=\"Bundle\"]",
   "input[name=\"Seats[]\"][value=\"Bundle\"]",
   "label:has-text(\"Front & Rear Seats\")",
   "div._title_q98un_383:has-text(\"Front & Rear Seats\")"]

/-- Select Color Options selectors (lines 288-295). -/
def continue_selectors : List String :=
  ["button:has-text(\"Select Color Options\")",
   "a:has-text(\"Select Color Options\")",
   "text=Select Color Options",
   "button:has-text(\"Select color options\")",
   "a:has-text(\"Select color options\")"]

/-- Step 3 detection selectors (lines 333-339). -/
def step3_wait_selectors : List String :=
  ["text=\"Step 3/3\"",
   "text=Color Details",
   "input[name=\"Color\"]",
   "div._color_option_au32d_1",
   "label[for^=\"default-color-\"]"]

/-- Color option selectors (lines 363-374). -/
def color_selectors : List String :=
  ["label[for=\"default-color-44846790672676\"]",
   "input#default-color-44846790672676",
   "label[for=\"default-color-44846752629028\"]",
   "input#default-color-44846752629028",
   "input[name=\"Color\"]",
   "label:has-text(\"Black\")",
   "div._color_option_au32d_1:first-child label"]

/-- Add to Cart selectors (lines 432-445). -/
def add_to_cart_selectors : List String :=
  ["button:has-text(\"Add to Cart\")",
   "button:has-text(\"ADD TO CART\")",
   "input[value*=\"Add to Cart\"]",
   "button[name=\"add\"]",
   "button.add-to-cart",
   "button[type=\"submit\"]:has-text(\"Add\")",
   "form[action*=\"/cart/add\"] button",
   ".product-form button[type=\"submit\"]",
   "button:has-text(\"Add to Bag\")",
   "button:has-text(\"Buy Now\")",
   "#AddToCart",
   ".btn-add-to-cart"]

/-- Checkout selectors (lines 519-532). -/
def checkout_selectors : List String :=
  ["button:has-text(\"Checkout\")",
   "a:has-text(\"Checkout\")",
   "button:has-text(\"Continue to Checkout\")",
   "a:has-text(\"Continue to Checkout\")",
   "button:has-text(\"Proceed to Checkout\")",
   "a:has-text(\"Proceed to Checkout\")",
   "a[href*=\"/checkout\"]",
   "button[onclick*=\"checkout\"]",
   ".cart-drawer button:has-text(\"Checkout\")",
   ".cart-popup a:has-text(\"Checkout\")",
   "#checkout-button",
   ".checkout-button"]

/-- The scroll-section loop of capture_page_sections (lines 653-662):
while scroll_pos < page_height and section_num <= max_sections (15),
take one screenshot and advance scroll_pos by viewport_height - 150.
The fuel argument is the number of sections still allowed; it starts
at 15 so the loop runs at most 15 iterations whatever the heights,
exactly as the section_num <= max_sections conjunct bounds it. -/
def capture_go (pageHeight viewportHeight scrollPos : Int) : Nat → Nat
  | 0 => 0
  | fuel + 1 =>
    if scrollPos < pageHeight then
      1 + capture_go pageHeight viewportHeight (scrollPos + viewportHeight - 150) fuel
    else 0

/-- Embedding of capture_page_sections (lines 641-671): when the
initial height evaluate raises, the function-level try/except swallows
the error and no section screenshot is taken; otherwise the loop takes
one screenshot per section, at most 15, each named with its section
number. -/
def capture_page_sections (evalCrash : Bool) (pageHeight viewportHeight : Int) :
    List Effect :=
  if evalCrash then []
  else
    (List.range (capture_go pageHeight viewportHeight 0 15)).map
      (fun i => Effect.shot ("02_scroll_section_" ++ toString (i + 1)))

/-- The description f-string of the Broken Images issue (line 689). -/
def brokenDesc (broken total : Nat) : String :=
  toString broken ++ " of " ++ toString total ++ " images failed to load"

/-- Embedding of check_images (lines 673-696): the evaluate counts the
DOM img elements whose load did not complete or resolved to zero
natural width; a raise is swallowed by the try/except (no issue); a
non-zero count logs exactly one issue of severity high and category
Broken Images whose description carries the count; a zero count logs
nothing. -/
def check_images (evalCrash : Bool) (broken total : Nat) : List Effect :=
  if evalCrash then []
  else if 0 < broken then
    [Effect.issue "high" "Broken Images" (brokenDesc broken total)]
  else []

/-- Claim C9: for every page whose DOM contains n > 0 images that did
not complete loading or have zero natural width, check_images records
exactly one issue, of severity high and category Broken Images, whose
description contains the count n - not one issue per broken image;
and with n = 0 no issue is recorded. -/
theorem check_images_one_issue (broken total : Nat) :
    (0 < broken →
      check_images false broken total =
        [Effect.issue "high" "Broken Images" (brokenDesc broken total)] ∧
      (issuesOf (check_images false broken total)).length = 1 ∧
      ∃ p q, brokenDesc broken total = p ++ toString broken ++ q) ∧
    check_images false 0 total = [] := by
  refine ⟨fun h => ⟨by simp [check_images, h], by simp [check_images, h, issuesOf], ?_⟩,
          by simp [check_images]⟩
  exact ⟨"", " of " ++ toString total ++ " images failed to load",
    by simp [brokenDesc, String.append_assoc]⟩

/-- Witness for C9: the spec's Scenario E, 3 of 10 images broken. -/
theorem check_images_one_issue_witness :
    0 < 3 ∧
    check_images false 3 10 =
      [Effect.issue "high" "Broken Images" (brokenDesc 3 10)] ∧
    (issuesOf (check_images false 3 10)).length = 1 ∧
    (∃ p q, brokenDesc 3 10 = p ++ toString 3 ++ q) ∧
    check_images false 0 10 = [] :=
  ⟨by decide,
   ((check_images_one_issue 3 10).1 (by decide)).1,
   ((check_images_one_issue 3 10).1 (by decide)).2.1,
   ((check_images_one_issue 3 10).1 (by decide)).2.2,
   (check_images_one_issue 3 10).2⟩

/-- Does the first character list occur at the head of the second? -/
def leadMatch : List Char → List Char → Bool
  | [], _ => true
  | _ :: _, [] => false
  | a :: as, b :: bs => a == b && leadMatch as bs

/-- Does needle occur contiguously anywhere inside hay? -/
def hasSub (needle : List Char) : List Char → Bool
  | [] => leadMatch needle []
  | b :: bs => leadMatch needle (b :: bs) || hasSub needle bs

/-- The Python membership test: needle in hay. -/
def strHasSub (needle hay : String) : Bool :=
  hasSub needle.data hay.data

/-- Python url.lower(), character by character (Char.toLower lowers
the ASCII range, which is what a URL is made of). -/
def strLower (s : String) : String :=
  String.mk (s.data.map Char.toLower)

/-- Line 582: 'checkout' in current_url.lower() or 'cart' in
current_url.lower(). -/
def checkout_url_ok (url : String) : Bool :=
  strHasSub "checkout" (strLower url) || strHasSub "cart" (strLower url)

/-- Outcome of one candidate selector in the add-to-cart loop (lines
448-499).  The whole per-candidate body runs in one try/except, so:
raises covers wait_for_selector, is_visible, is_disabled,
scroll_into_view_if_needed or the highlight evaluate raising - all
before the highlight screenshot; notFound is wait_for_selector
returning no element; notVisible fails is_visible; disabled is a
found, visible button whose is_disabled check returns True - the loop
prints a warning and moves to the next candidate without clicking
(lines 458-460); clickFails means the highlight screenshot was taken
and then add_button.click raised; ok is the full success path:
highlight screenshot, click, settle wait, after-click screenshot. -/
inductive AtcStep
  | raises | notFound | notVisible | disabled | clickFails | ok
deriving DecidableEq

/-- The add-to-cart candidate loop (lines 447-499): first fully
successful candidate sets cart_added and breaks; a disabled button is
skipped like any non-match. -/
def add_to_cart_loop (env : String → AtcStep) : List String → Bool × List Effect
  | [] => (false, [])
  | s :: rest =>
    match env s with
    | AtcStep.ok =>
        (true, [Effect.shot "07a_add_cart_highlighted",
                Effect.shot "07b_after_add_to_cart"])
    | AtcStep.clickFails =>
        let r := add_to_cart_loop env rest
        (r.1, Effect.shot "07a_add_cart_highlighted" :: r.2)
    | _ => add_to_cart_loop env rest

/-- The description of the Add to Cart Failed issue (line 508). -/
def atcFailDesc : String :=
  "Could not find or click Add to Cart button (likely Step 3 not reached or button blocked)"

/-- The whole add-to-cart stage: the candidate loop plus the
if not cart_added error block (lines 501-511). -/
def add_to_cart_stage (env : String → AtcStep) (sels : List String) :
    Bool × List Effect :=
  let r := add_to_cart_loop env sels
  if r.1 then r
  else (false,
        r.2 ++ [Effect.shot "07_ERROR_add_cart_failed",
                Effect.issue "critical" "Add to Cart Failed" atcFailDesc])

/-- Outcome of one candidate selector in the checkout loop (lines
535-600).  raises covers wait_for_selector, is_visible,
scroll_into_view_if_needed or the highlight evaluate raising; notFound
is wait_for_selector returning no element; notVisible fails
is_visible; clickFails means the highlight screenshot was taken and
checkout_btn.click raised; ok finalUrl is the success path - click,
navigation waits, after-click screenshot - with page.url equal to
finalUrl afterwards.  There is no disabled check in this loop. -/
inductive CkoStep
  | raises | notFound | notVisible | clickFails | ok (finalUrl : String)
deriving DecidableEq

/-- Embedding of capture_checkout_sections (lines 698-728): three
section screenshots, truncated at failAt steps when an evaluate inside
raises (the function-level try/except swallows the error). -/
def capture_checkout_sections (failAt : Option Nat) : List Effect :=
  List.take
    (match failAt with
     | some k => k
     | none => 3)
    [Effect.shot "08c_checkout_top",
     Effect.shot "08d_checkout_middle",
     Effect.shot "08e_checkout_bottom"]

/-- The checkout candidate loop (lines 534-600): the first fully
successful candidate sets checkout_found and breaks; after its click
the final URL is inspected - a URL containing checkout or cart leads
to the checkout section captures, any other URL logs a medium
Checkout Navigation issue.  Either way the loop stops. -/
def checkout_loop (env : String → CkoStep) (capFail : Option Nat) :
    List String → Bool × List Effect
  | [] => (false, [])
  | s :: rest =>
    match env s with
    | CkoStep.ok url =>
        (true,
         Effect.shot "08a_checkout_button_highlighted" ::
         Effect.shot "08b_checkout_page_loaded" ::
         (if checkout_url_ok url then capture_checkout_sections capFail
          else [Effect.issue "medium" "Checkout Navigation"
                  ("Clicked checkout but URL is: " ++ url)]))
    | CkoStep.clickFails =>
        let r := checkout_loop env capFail rest
        (r.1, Effect.shot "08a_checkout_button_highlighted" :: r.2)
    | _ => checkout_loop env capFail rest

/-- The whole checkout stage: the candidate loop plus the
if not checkout_found error block (lines 602-612). -/
def checkout_stage (env : String → CkoStep) (capFail : Option Nat)
    (sels : List String) : Bool × List Effect :=
  let r := checkout_loop env capFail sels
  if r.1 then r
  else (false,
        r.2 ++ [Effect.shot "08_ERROR_checkout_not_found",
                Effect.issue "critical" "Checkout Not Found"
                  "Could not find checkout button in cart"])

/-- The page environment driving one test_url session (lines 125-639).
Each field fixes the behaviour of one page primitive the session body
depends on.  The crash fields stand for the unguarded awaits of the
body - operations not wrapped in their own try/except, whose raise
reaches the outermost session try/except:
- gotoCrash: page.goto raises (line 164);
- responseNone: page.goto returned None, so response.status raises
  (line 175);
- scrollTopCrash: the scroll-to-top evaluate raises (line 198);
- seatVerifyCrash: the checked-state evaluate raises (line 258),
  reached only when the seat click succeeded;
- scrollByCrash1: the scroll-by evaluate raises (line 352), reached
  only when step 3 was not detected;
- scrollByCrash2: the scroll-by evaluate raises (line 429).
sectionEvalCrash and imagesEvalCrash are the guarded evaluates of
capture_page_sections and check_images (their raise is swallowed
locally).  step3Sel tells for each step-3 wait selector whether its
guarded wait_for_selector succeeds.  colorChecked is the result of
the guarded any-color-checked evaluate; its except arm collapses a
raise to False (lines 394-405), so a Bool is the faithful shape. -/
structure Env where
  gotoCrash : Bool
  responseNone : Bool
  sectionEvalCrash : Bool
  pageHeight : Int
  viewportHeight : Int
  imagesEvalCrash : Bool
  broken : Nat
  total : Nat
  scrollTopCrash : Bool
  seatSel : String → SelStep
  seatVerifyCrash : Bool
  contSel : String → SelStep
  step3Sel : String → Bool
  scrollByCrash1 : Bool
  colorSel : String → SelStep
  colorChecked : Bool
  scrollByCrash2 : Bool
  atcSel : String → AtcStep
  ckoSel : String → CkoStep
  ckoCapFail : Option Nat

/-- Effects of the pre-interaction phase (lines 186-195): the initial
screenshot, the scroll-section captures, the image check.  The
scroll-back evaluate at line 198 comes right after and is the first
unguarded await that can raise past this phase. -/
def preEffects (env : Env) : List Effect :=
  Effect.shot "01_initial_page_load" ::
  (capture_page_sections env.sectionEvalCrash env.pageHeight env.viewportHeight ++
   check_images env.imagesEvalCrash env.broken env.total)

/-- The seat stage resolver call with its before-screenshot (lines
220-254). -/
def seatTryEffects (env : Env) : List Effect :=
  Effect.shot "04_before_seat_selection" ::
  (click_first_working env.seatSel "04a_seat_option" seat_selectors).2.2

/-- Did the seat click succeed (seat_clicked at line 246)? -/
def seatHit (env : Env) : Bool :=
  (click_first_working env.seatSel "04a_seat_option" seat_selectors).1

/-- The post-seat branch (lines 257-279): the checked-state
verification screenshot on success; on failure the error screenshot
plus the critical Seat Selection Failed issue - and nothing else: the
body then walks straight on to the next stage. -/
def seatResEffects (env : Env) : List Effect :=
  if seatHit env then [Effect.shot "04b_seat_option_selected"]
  else [Effect.shot "04_ERROR_seat_not_clicked",
        Effect.issue "critical" "Seat Selection Failed"
          "Could not click Front & Rear Seats option"]

/-- Did the Select Color Options click succeed (continued, line 303)? -/
def contHit (env : Env) : Bool :=
  (click_first_working env.contSel "04c_select_color_options" continue_selectors).1

/-- The Select Color Options stage (lines 283-324): resolver effects,
and on failure the warning screenshot plus the high Step Progression
issue. -/
def contEffects (env : Env) : List Effect :=
  (click_first_working env.contSel "04c_select_color_options"
    continue_selectors).2.2 ++
  (if contHit env then ([] : List Effect)
   else [Effect.shot "04c_ERROR_continue_not_clicked",
         Effect.issue "high" "Step Progression"
           "Could not click Select Color Options; Step 3 may not appear"])

/-- Was step 3 detected by any of the wait selectors (lines 332-348)? -/
def step3Found (env : Env) : Bool :=
  step3_wait_selectors.any env.step3Sel

/-- The step-3 screenshot, the color stage and the pre-add-to-cart
screenshot (lines 355-425): the step-3 section screenshot, the color
resolver effects, one screenshot whose name depends on whether a color
was selected or verified checked, and the before-add-to-cart
screenshot.  No issue is ever logged here: an unselected color is
tolerated (lines 407-414). -/
def colorEffects (env : Env) : List Effect :=
  (Effect.shot "05_step3_color_section" ::
   ((click_first_working env.colorSel "06a_color_option" color_selectors).2.2 ++
    [if (click_first_working env.colorSel "06a_color_option" color_selectors).1
        || env.colorChecked
     then Effect.shot "06b_color_selected"
     else Effect.shot "06_color_default"])) ++
  [Effect.shot "07_before_add_to_cart"]

/-- Did an exception escape the body of test_url to the outermost
except block?  The body's unguarded awaits, in source order: page.goto
and response.status (lines 164-175), the scroll-to-top evaluate (line
198), the seat checked-state evaluate (line 258, reached only when the
seat click succeeded), the scroll-by evaluate (line 352, reached only
when step 3 was not detected), the scroll-by evaluate (line 429).
Everything else is inside some try/except. -/
def test_url_crashed (env : Env) : Bool :=
  (env.gotoCrash || env.responseNone) || env.scrollTopCrash ||
  (seatHit env && env.seatVerifyCrash) ||
  (!step3Found env && env.scrollByCrash1) || env.scrollByCrash2

/-- The effects performed by the body of test_url inside the outermost
try (lines 154-621), in order, truncated at the first unguarded await
that raises (the if-chain mirrors the body's source order; each
earlier guard cuts the trace where the exception interrupts the body).
The dismiss_overlays calls of the body take no screenshots and log no
issues, so they contribute no tracked effects. -/
def test_url_effs (env : Env) : List Effect :=
  if env.gotoCrash || env.responseNone then []
  else if env.scrollTopCrash then preEffects env
  else if seatHit env && env.seatVerifyCrash then
    preEffects env ++ seatTryEffects env
  else if !step3Found env && env.scrollByCrash1 then
    preEffects env ++ seatTryEffects env ++ seatResEffects env ++ contEffects env
  else if env.scrollByCrash2 then
    preEffects env ++ seatTryEffects env ++ seatResEffects env ++
    contEffects env ++ colorEffects env
  else
    preEffects env ++ seatTryEffects env ++ seatResEffects env ++
    contEffects env ++ colorEffects env ++
    (add_to_cart_stage env.atcSel add_to_cart_selectors).2 ++
    (checkout_stage env.ckoSel env.ckoCapFail checkout_selectors).2 ++
    [Effect.shot "09_final_page_state"]

/-- Embedding of test_url (lines 125-639): the body runs inside
try/except Exception; an exception reaching the handler produces the
crash screenshot and the critical Test Crashed issue (lines 628-637);
browser.close() (line 639) runs after the try/except on both paths. -/
def test_url (env : Env) : List Effect :=
  test_url_effs env ++
  (if test_url_crashed env then
     [Effect.shot "ERROR_test_crashed",
      Effect.issue "critical" "Test Crashed" "Test failed with exception"]
   else []) ++
  [Effect.close]

/-- No unguarded await of the session body raises: the six crash
switches of the environment are off.  Stage failures - selectors not
matching, buttons disabled, URLs wrong - remain arbitrary. -/
def NoCrash (env : Env) : Prop :=
  env.gotoCrash = false ∧ env.responseNone = false ∧
  env.scrollTopCrash = false ∧ env.seatVerifyCrash = false ∧
  env.scrollByCrash1 = false ∧ env.scrollByCrash2 = false

instance (env : Env) : Decidable (NoCrash env) := by
  unfold NoCrash; infer_instance

theorem applyAll_close (cap : Nat → Bool) (effs : List Effect) (s : RunState) :
    (applyAll cap (effs ++ [Effect.close]) s).closed = true := by
  simp [applyAll, List.foldl_append, applyE]

theorem test_url_ends_close (env : Env) :
    (test_url env).getLast? = some Effect.close := by
  simp only [test_url]
  rw [List.getLast?_concat]

theorem test_url_closed (env : Env) (cap : Nat → Bool) (s : RunState) :
    (applyAll cap (test_url env) s).closed = true := by
  simp only [test_url]
  exact applyAll_close cap _ s

theorem body_nocrash (env : Env) (h : NoCrash env) :
    test_url_crashed env = false := by
  obtain ⟨h1, h2, h3, h4, h5, h6⟩ := h
  simp [test_url_crashed, h1, h2, h3, h4, h5, h6]

/-- Claim C3: for every session environment the funnel run reaches its
terminal state and closes the browser regardless of how many stages
fail: the effect trace always ends with browser.close(), replaying the
trace always leaves the browser closed, no stage failure alone makes
an exception escape the body (with the unguarded awaits behaving, the
body never reports a crash, however many stages fail), and an
exception that does escape the body is caught at the outermost session
scope and turned into the critical Test Crashed issue rather than
propagated. -/
theorem test_url_terminates_and_closes (env : Env) (cap : Nat → Bool)
    (s : RunState) :
    (test_url env).getLast? = some Effect.close ∧
    (applyAll cap (test_url env) s).closed = true ∧
    (NoCrash env → test_url_crashed env = false) ∧
    (test_url_crashed env = true →
      Effect.issue "critical" "Test Crashed" "Test failed with exception"
        ∈ test_url env) :=
  ⟨test_url_ends_close env, test_url_closed env cap s,
   body_nocrash env,
   fun h => by simp [test_url, h]⟩

/-- A session environment on which every stage fails: every candidate
lookup of every stage raises, step 3 is never detected, no color input
reports checked, the page reports no broken image and a zero scroll
height, and none of the unguarded awaits raises. -/
def envAllFail : Env :=
  { gotoCrash := false
    responseNone := false
    sectionEvalCrash := false
    pageHeight := 0
    viewportHeight := 0
    imagesEvalCrash := false
    broken := 0
    total := 10
    scrollTopCrash := false
    seatSel := fun _ => SelStep.raises
    seatVerifyCrash := false
    contSel := fun _ => SelStep.raises
    step3Sel := fun _ => false
    scrollByCrash1 := false
    colorSel := fun _ => SelStep.raises
    colorChecked := false
    scrollByCrash2 := false
    atcSel := fun _ => AtcStep.raises
    ckoSel := fun _ => CkoStep.raises
    ckoCapFail := none }

theorem test_url_terminates_and_closes_witness :
    (test_url envAllFail).getLast? = some Effect.close ∧
    (applyAll (fun _ => true) (test_url envAllFail) initState).closed = true ∧
    test_url_crashed envAllFail = false :=
  ⟨(test_url_terminates_and_closes envAllFail (fun _ => true) initState).1,
   (test_url_terminates_and_closes envAllFail (fun _ => true) initState).2.1,
   (test_url_terminates_and_closes envAllFail (fun _ => true) initState).2.2.1
     (by decide)⟩

/-- Counterexample to C4 as stated.  On the concrete environment
envAllFail the seat-stage click fails, yet the session's issue trace
is exactly: the critical Seat Selection Failed issue, then the high
Step Progression issue, then the critical Add to Cart Failed issue,
then the critical Checkout Not Found issue.  The presence of the
post-seat-stage issues shows the remaining stages were executed, so
the funnel did not abort forward progress, no vehicle-attributes-unlock
sub-flow ran and the CTA was not retried: after the seat failure the
body goes straight on to the Select Color Options click (line 281
onward) with no retry and no stage skipping. -/
theorem seat_unlock_subflow_cex :
    issuesOf (test_url envAllFail) =
      [("critical", "Seat Selection Failed",
        "Could not click Front & Rear Seats option"),
       ("high", "Step Progression",
        "Could not click Select Color Options; Step 3 may not appear"),
       ("critical", "Add to Cart Failed", atcFailDesc),
       ("critical", "Checkout Not Found",
        "Could not find checkout button in cart")] := by
  decide

/-- Claim C4, amended to what the code does: if the seat-stage click
fails (no seat candidate works), the stage logs a critical Seat
Selection Failed issue and the funnel does not abort - there is no
vehicle-attributes-unlock sub-flow and no retry in test_url; all
remaining stages still run (the add-to-cart stage is still reached)
while already-captured data is preserved (the trace only ever grows),
and the session still ends by closing the browser. -/
theorem seat_failure_logs_and_continues (env : Env) (hnc : NoCrash env)
    (hseat : ∀ x ∈ seat_selectors, ¬ selWorks env.seatSel x) :
    Effect.issue "critical" "Seat Selection Failed"
        "Could not click Front & Rear Seats option" ∈ test_url env ∧
    Effect.shot "07_before_add_to_cart" ∈ test_url env ∧
    (test_url env).getLast? = some Effect.close := by
  obtain ⟨h1, h2, h3, h4, h5, h6⟩ := hnc
  have hsf : seatHit env = false := by
    simp [seatHit,
      (cfw_none_aux env.seatSel "04a_seat_option" seat_selectors hseat).1]
  refine ⟨?_, ?_, test_url_ends_close env⟩
  · simp [test_url, test_url_effs, h1, h2, h3, h5, h6, hsf, seatResEffects]
  · simp [test_url, test_url_effs, h1, h2, h3, h5, h6, hsf, colorEffects]

theorem seat_failure_logs_and_continues_witness :
    Effect.issue "critical" "Seat Selection Failed"
        "Could not click Front & Rear Seats option" ∈ test_url envAllFail ∧
    Effect.shot "07_before_add_to_cart" ∈ test_url envAllFail ∧
    (test_url envAllFail).getLast? = some Effect.close :=
  seat_failure_logs_and_continues envAllFail (by decide) (by decide)

/-- Claim C5: a button candidate that is found and visible but
disabled is treated as not matched: the add-to-cart loop proceeds to
the next candidate exactly as if the disabled candidate were not
there, and when the disabled button is the only candidate the stage
concludes failure and emits the critical Add to Cart Failed issue -
enabled state is part of the match predicate for the add-to-cart
buttons (lines 453-460). -/
theorem disabled_button_skipped (env : String → AtcStep) (s : String)
    (rest : List String) (h : env s = AtcStep.disabled) :
    add_to_cart_loop env (s :: rest) = add_to_cart_loop env rest ∧
    (add_to_cart_stage env [s]).1 = false ∧
    Effect.issue "critical" "Add to Cart Failed" atcFailDesc
      ∈ (add_to_cart_stage env [s]).2 := by
  refine ⟨by simp [add_to_cart_loop, h], ?_, ?_⟩ <;>
    simp [add_to_cart_stage, add_to_cart_loop, h]

/-- Witness environment for C5: every add-to-cart candidate resolves
to a found, visible but disabled button. -/
def envC5 : String → AtcStep := fun _ => AtcStep.disabled

theorem disabled_button_skipped_witness :
    envC5 "#AddToCart" = AtcStep.disabled ∧
    (add_to_cart_loop envC5 ("#AddToCart" :: [".btn-add-to-cart"]) =
       add_to_cart_loop envC5 [".btn-add-to-cart"] ∧
     (add_to_cart_stage envC5 ["#AddToCart"]).1 = false ∧
     Effect.issue "critical" "Add to Cart Failed" atcFailDesc
       ∈ (add_to_cart_stage envC5 ["#AddToCart"]).2) :=
  ⟨by decide,
   disabled_button_skipped envC5 "#AddToCart" [".btn-add-to-cart"] (by decide)⟩

theorem issuesOf_nil : issuesOf [] = [] := rfl

theorem issuesOf_cons_shot (n : String) (l : List Effect) :
    issuesOf (Effect.shot n :: l) = issuesOf l := rfl

theorem issuesOf_cons_issue (a b c : String) (l : List Effect) :
    issuesOf (Effect.issue a b c :: l) = (a, b, c) :: issuesOf l := rfl

theorem issuesOf_cons_close (l : List Effect) :
    issuesOf (Effect.close :: l) = issuesOf l := rfl

theorem issuesOf_append (a b : List Effect) :
    issuesOf (a ++ b) = issuesOf a ++ issuesOf b := by
  simp [issuesOf, List.filterMap_append]

theorem issuesOf_sections (c : Bool) (ph vh : Int) :
    issuesOf (capture_page_sections c ph vh) = [] := by
  unfold capture_page_sections
  split
  · rfl
  · rw [issuesOf, List.filterMap_eq_nil_iff]
    intro a ha
    obtain ⟨i, _, rfl⟩ := List.mem_map.mp ha
    rfl

theorem issuesOf_check_images (c : Bool) (b t : Nat) :
    issuesOf (check_images c b t) =
      if c then [] else if 0 < b then [("high", "Broken Images", brokenDesc b t)]
      else [] := by
  unfold check_images
  split
  · rfl
  · split <;> simp_all [issuesOf]

theorem issuesOf_cfw (env : String → SelStep) (pfx : String) (l : List String) :
    issuesOf (click_first_working env pfx l).2.2 = [] := by
  induction l with
  | nil => rfl
  | cons a as ih =>
      cases h : env a <;>
        simp_all [click_first_working, issuesOf_cons_shot, issuesOf_nil]

theorem issuesOf_atc_loop (env : String → AtcStep) (l : List String) :
    issuesOf (add_to_cart_loop env l).2 = [] := by
  induction l with
  | nil => rfl
  | cons a as ih =>
      cases h : env a <;>
        simp_all [add_to_cart_loop, issuesOf_cons_shot, issuesOf_nil]

theorem issuesOf_atc_stage (env : String → AtcStep) (l : List String) :
    issuesOf (add_to_cart_stage env l).2 =
      if (add_to_cart_loop env l).1 then []
      else [("critical", "Add to Cart Failed", atcFailDesc)] := by
  unfold add_to_cart_stage
  split <;>
    simp_all [issuesOf_append, issuesOf_atc_loop, issuesOf_cons_shot,
      issuesOf_cons_issue, issuesOf_nil]

theorem issuesOf_ckocap (f : Option Nat) :
    issuesOf (capture_checkout_sections f) = [] := by
  rw [issuesOf, List.filterMap_eq_nil_iff]
  intro a ha
  have ha' := List.take_subset _ _ ha
  fin_cases ha' <;> rfl

theorem issuesOf_cko_loop (env : String → CkoStep) (f : Option Nat)
    (l : List String) :
    ∀ x ∈ issuesOf (checkout_loop env f l).2,
      ∃ url, checkout_url_ok url = false ∧
        x = ("medium", "Checkout Navigation",
             "Clicked checkout but URL is: " ++ url) := by
  induction l with
  | nil => intro x hx; simp [checkout_loop, issuesOf_nil] at hx
  | cons a as ih =>
      intro x hx
      cases h : env a
      case raises =>
        simp only [checkout_loop, h] at hx
        exact ih x hx
      case notFound =>
        simp only [checkout_loop, h] at hx
        exact ih x hx
      case notVisible =>
        simp only [checkout_loop, h] at hx
        exact ih x hx
      case clickFails =>
        simp only [checkout_loop, h] at hx
        rw [issuesOf_cons_shot] at hx
        exact ih x hx
      case ok url =>
        simp only [checkout_loop, h] at hx
        rw [issuesOf_cons_shot, issuesOf_cons_shot] at hx
        cases hu : checkout_url_ok url
        · rw [hu] at hx
          simp only [Bool.false_eq_true, if_false, issuesOf_cons_issue,
            issuesOf_nil, List.mem_singleton] at hx
          exact ⟨url, hu, hx⟩
        · rw [hu] at hx
          simp only [if_true, issuesOf_ckocap] at hx
          simp at hx

theorem issuesOf_cko_stage (env : String → CkoStep) (f : Option Nat)
    (l : List String) :
    ∀ x ∈ issuesOf (checkout_stage env f l).2,
      (∃ url, x = ("medium", "Checkout Navigation",
                   "Clicked checkout but URL is: " ++ url)) ∨
      x = ("critical", "Checkout Not Found",
           "Could not find checkout button in cart") := by
  intro x hx
  simp only [checkout_stage] at hx
  split at hx
  · obtain ⟨url, _, hx⟩ := issuesOf_cko_loop env f l x hx
    exact Or.inl ⟨url, hx⟩
  · rw [issuesOf_append] at hx
    rcases List.mem_append.mp hx with hx | hx
    · obtain ⟨url, _, hx⟩ := issuesOf_cko_loop env f l x hx
      exact Or.inl ⟨url, hx⟩
    · simp [issuesOf_cons_shot, issuesOf_cons_issue, issuesOf_nil] at hx
      exact Or.inr hx

theorem issuesOf_pre (env : Env) :
    ∀ x ∈ issuesOf (preEffects env), (x.1, x.2.1) = ("high", "Broken Images") := by
  intro x hx
  rw [preEffects, issuesOf_cons_shot, issuesOf_append, issuesOf_sections,
    issuesOf_check_images] at hx
  split at hx
  · simp at hx
  · split at hx <;> simp_all

theorem issuesOf_seatTry (env : Env) : issuesOf (seatTryEffects env) = [] := by
  rw [seatTryEffects, issuesOf_cons_shot, issuesOf_cfw]

theorem issuesOf_seatRes (env : Env) :
    ∀ x ∈ issuesOf (seatResEffects env),
      (x.1, x.2.1) = ("critical", "Seat Selection Failed") := by
  intro x hx
  rw [seatResEffects] at hx
  split at hx <;> simp_all [issuesOf_cons_shot, issuesOf_cons_issue, issuesOf_nil]

theorem issuesOf_cont (env : Env) :
    ∀ x ∈ issuesOf (contEffects env),
      (x.1, x.2.1) = ("high", "Step Progression") := by
  intro x hx
  rw [contEffects, issuesOf_append, issuesOf_cfw] at hx
  split at hx <;> simp_all [issuesOf_cons_shot, issuesOf_cons_issue, issuesOf_nil]

theorem issuesOf_color (env : Env) : issuesOf (colorEffects env) = [] := by
  rw [colorEffects, issuesOf_append, issuesOf_cons_shot, issuesOf_append,
    issuesOf_cfw]
  split <;> simp [issuesOf]

/-- Every (severity, category) pair the session can ever emit: issue
severity is hard-coded per failing stage at each log_issue call site. -/
def sevCatPairs : List (String × String) :=
  [("critical", "Seat Selection Failed"),
   ("high", "Step Progression"),
   ("high", "Broken Images"),
   ("critical", "Add to Cart Failed"),
   ("medium", "Checkout Navigation"),
   ("critical", "Checkout Not Found"),
   ("critical", "Test Crashed")]

theorem pairsP_append {l1 l2 : List Effect}
    (h1 : ∀ y ∈ issuesOf l1, (y.1, y.2.1) ∈ sevCatPairs)
    (h2 : ∀ y ∈ issuesOf l2, (y.1, y.2.1) ∈ sevCatPairs) :
    ∀ y ∈ issuesOf (l1 ++ l2), (y.1, y.2.1) ∈ sevCatPairs := by
  intro y hy
  rw [issuesOf_append] at hy
  rcases List.mem_append.mp hy with hy | hy
  exacts [h1 y hy, h2 y hy]

theorem pairsP_nil : ∀ y ∈ issuesOf ([] : List Effect), (y.1, y.2.1) ∈ sevCatPairs := by
  intro y hy; cases hy

theorem pairsP_pre (env : Env) :
    ∀ y ∈ issuesOf (preEffects env), (y.1, y.2.1) ∈ sevCatPairs := by
  intro y hy; simp [sevCatPairs, issuesOf_pre env y hy]

theorem pairsP_seatTry (env : Env) :
    ∀ y ∈ issuesOf (seatTryEffects env), (y.1, y.2.1) ∈ sevCatPairs := by
  rw [issuesOf_seatTry]; intro y hy; cases hy

theorem pairsP_seatRes (env : Env) :
    ∀ y ∈ issuesOf (seatResEffects env), (y.1, y.2.1) ∈ sevCatPairs := by
  intro y hy; simp [sevCatPairs, issuesOf_seatRes env y hy]

theorem pairsP_cont (env : Env) :
    ∀ y ∈ issuesOf (contEffects env), (y.1, y.2.1) ∈ sevCatPairs := by
  intro y hy; simp [sevCatPairs, issuesOf_cont env y hy]

theorem pairsP_color (env : Env) :
    ∀ y ∈ issuesOf (colorEffects env), (y.1, y.2.1) ∈ sevCatPairs := by
  rw [issuesOf_color]; intro y hy; cases hy

theorem pairsP_atc (env : Env) :
    ∀ y ∈ issuesOf (add_to_cart_stage env.atcSel add_to_cart_selectors).2,
      (y.1, y.2.1) ∈ sevCatPairs := by
  intro y hy
  rw [issuesOf_atc_stage] at hy
  split at hy
  · cases hy
  · simp_all [sevCatPairs]

theorem pairsP_cko (env : Env) :
    ∀ y ∈ issuesOf (checkout_stage env.ckoSel env.ckoCapFail checkout_selectors).2,
      (y.1, y.2.1) ∈ sevCatPairs := by
  intro y hy
  rcases issuesOf_cko_stage env.ckoSel env.ckoCapFail checkout_selectors y hy with
    ⟨url, h⟩ | h <;> simp [sevCatPairs, h]

theorem pairsP_shot09 :
    ∀ y ∈ issuesOf [Effect.shot "09_final_page_state"],
      (y.1, y.2.1) ∈ sevCatPairs := by
  intro y hy
  rw [issuesOf_cons_shot, issuesOf_nil] at hy
  cases hy

theorem pairsP_crashtail :
    ∀ y ∈ issuesOf [Effect.shot "ERROR_test_crashed",
        Effect.issue "critical" "Test Crashed" "Test failed with exception"],
      (y.1, y.2.1) ∈ sevCatPairs := by
  intro y hy
  rw [issuesOf_cons_shot, issuesOf_cons_issue, issuesOf_nil] at hy
  rcases List.mem_singleton.mp hy with rfl
  simp [sevCatPairs]

theorem pairsP_close :
    ∀ y ∈ issuesOf [Effect.close], (y.1, y.2.1) ∈ sevCatPairs := by
  intro y hy
  rw [issuesOf_cons_close, issuesOf_nil] at hy
  cases hy

theorem pairsP_effs (env : Env) :
    ∀ y ∈ issuesOf (test_url_effs env), (y.1, y.2.1) ∈ sevCatPairs := by
  unfold test_url_effs
  split
  · exact pairsP_nil
  split
  · exact pairsP_pre env
  split
  · exact pairsP_append (pairsP_pre env) (pairsP_seatTry env)
  split
  · exact pairsP_append
      (pairsP_append (pairsP_append (pairsP_pre env) (pairsP_seatTry env))
        (pairsP_seatRes env))
      (pairsP_cont env)
  split
  · exact pairsP_append
      (pairsP_append
        (pairsP_append (pairsP_append (pairsP_pre env) (pairsP_seatTry env))
          (pairsP_seatRes env))
        (pairsP_cont env))
      (pairsP_color env)
  · exact pairsP_append
      (pairsP_append
        (pairsP_append
          (pairsP_append
            (pairsP_append
              (pairsP_append (pairsP_append (pairsP_pre env) (pairsP_seatTry env))
                (pairsP_seatRes env))
              (pairsP_cont env))
            (pairsP_color env))
          (pairsP_atc env))
        (pairsP_cko env))
      pairsP_shot09

theorem test_url_issue_pairs (env : Env) :
    ∀ x ∈ issuesOf (test_url env), (x.1, x.2.1) ∈ sevCatPairs := by
  unfold test_url
  refine pairsP_append (pairsP_append (pairsP_effs env) ?_) pairsP_close
  split
  · exact pairsP_crashtail
  · exact pairsP_nil

/-- Claim C6: issue severity is a pure function of the failing stage
and failure type: an add-to-cart stage failure always logs its issue
with severity critical; a checkout click landing on a URL containing
neither checkout nor cart yields the medium Checkout Navigation issue;
every Checkout Navigation issue the session can emit has severity
medium - never critical - and every Add to Cart Failed issue has
severity critical; and the session still runs to completion (the
trace still ends with browser.close()). -/
theorem issue_severity_pure (env : Env) :
    (NoCrash env →
      (add_to_cart_loop env.atcSel add_to_cart_selectors).1 = false →
      Effect.issue "critical" "Add to Cart Failed" atcFailDesc ∈ test_url env) ∧
    (∀ s rest url, env.ckoSel s = CkoStep.ok url →
      checkout_url_ok url = false →
      issuesOf (checkout_loop env.ckoSel env.ckoCapFail (s :: rest)).2 =
        [("medium", "Checkout Navigation",
          "Clicked checkout but URL is: " ++ url)]) ∧
    (∀ sev cat desc, (sev, cat, desc) ∈ issuesOf (test_url env) →
      (cat = "Checkout Navigation" → sev = "medium") ∧
      (cat = "Add to Cart Failed" → sev = "critical")) ∧
    (test_url env).getLast? = some Effect.close := by
  refine ⟨fun hnc hfail => ?_, fun s rest url hok hbad => ?_,
          fun sev cat desc h => ?_, test_url_ends_close env⟩
  · obtain ⟨h1, h2, h3, h4, h5, h6⟩ := hnc
    simp [test_url, test_url_effs, h1, h2, h3, h4, h5, h6,
      add_to_cart_stage, hfail]
  · simp [checkout_loop, hok, hbad, issuesOf_cons_shot, issuesOf_cons_issue,
      issuesOf_nil]
  · have hp := test_url_issue_pairs env (sev, cat, desc) h
    simp [sevCatPairs] at hp
    constructor <;> intro hcat <;>
      rcases hp with hp | hp | hp | hp | hp | hp | hp <;> simp_all

/-- Witness environment for C6: the add-to-cart stage fails (every
candidate raises) and the first checkout candidate clicks through to
a URL containing neither checkout nor cart. -/
def envC6 : Env :=
  { envAllFail with
    ckoSel := fun s =>
      if s = "button:has-text(\"Checkout\")" then
        CkoStep.ok "https://example.com/thankyou"
      else CkoStep.raises }

theorem issue_severity_pure_witness :
    Effect.issue "critical" "Add to Cart Failed" atcFailDesc ∈ test_url envC6 ∧
    issuesOf (checkout_loop envC6.ckoSel envC6.ckoCapFail
        ["button:has-text(\"Checkout\")"]).2 =
      [("medium", "Checkout Navigation",
        "Clicked checkout but URL is: " ++ "https://example.com/thankyou")] ∧
    ("Checkout Navigation" = "Checkout Navigation" → "medium" = "medium") :=
  ⟨(issue_severity_pure envC6).1 (by decide) (by decide),
   (issue_severity_pure envC6).2.1 "button:has-text(\"Checkout\")" []
     "https://example.com/thankyou" (by decide) (by decide),
   ((issue_severity_pure envC6).2.2.1 "medium" "Checkout Navigation"
     ("Clicked checkout but URL is: " ++ "https://example.com/thankyou")
     (by decide)).1⟩

/-- Embedding of run_tests (lines 757-817): one SeatCoverQA object
drives every session in order - for each cleaned URL a desktop session
then a mobile session - threading the same object state (screenshot
counter, issue list) through all of them; the counter is never written
anywhere except the increment inside take_screenshot, and never reset.
Each (url, device) session is test_url under that session's page
environment, so a whole run is the concatenation of the per-session
effect traces in order; sessions lists those environments in run
order. -/
def run_tests (sessions : List Env) : List Effect :=
  (sessions.map test_url).flatten

/-- The run invariant tying the written screenshot files to the
counter: file numbers are strictly increasing in write order and never
exceed the counter. -/
def CounterInv (s : RunState) : Prop :=
  s.shots.Pairwise (· < ·) ∧ ∀ n ∈ s.shots, n ≤ s.counter

theorem applyE_counter_shot (cap : Nat → Bool) (s : RunState) (name : String) :
    (applyE cap s (Effect.shot name)).counter = s.counter + 1 := by
  simp only [applyE, take_screenshot]
  cases hc : cap (s.counter + 1) <;> simp

theorem applyE_inv (cap : Nat → Bool) (s : RunState) (e : Effect)
    (h : CounterInv s) : CounterInv (applyE cap s e) := by
  obtain ⟨hp, hb⟩ := h
  cases e with
  | shot name =>
      simp only [applyE, take_screenshot]
      cases hc : cap (s.counter + 1)
      · simp only [Bool.false_eq_true, if_false]
        exact ⟨hp, fun n hn => Nat.le_succ_of_le (hb n hn)⟩
      · simp only [if_true]
        refine ⟨?_, ?_⟩
        · rw [List.pairwise_append]
          refine ⟨hp, List.pairwise_singleton _ _, ?_⟩
          intro a ha b hbb
          rw [List.mem_singleton] at hbb
          subst hbb
          exact Nat.lt_succ_of_le (hb a ha)
        · intro n hn
          rcases List.mem_append.mp hn with hn | hn
          · exact Nat.le_succ_of_le (hb n hn)
          · rw [List.mem_singleton] at hn
            subst hn
            exact Nat.le.refl
  | issue sev cat desc => exact ⟨hp, hb⟩
  | close => exact ⟨hp, hb⟩

theorem applyAll_inv (cap : Nat → Bool) (effs : List Effect) (s : RunState)
    (h : CounterInv s) : CounterInv (applyAll cap effs s) := by
  induction effs generalizing s with
  | nil => exact h
  | cons e es ih => exact ih (applyE cap s e) (applyE_inv cap s e h)

theorem applyAll_counter (cap : Nat → Bool) (effs : List Effect) (s : RunState) :
    (applyAll cap effs s).counter = s.counter + countShots effs := by
  induction effs generalizing s with
  | nil => simp [applyAll, countShots]
  | cons e es ih =>
      have hstep : applyAll cap (e :: es) s = applyAll cap es (applyE cap s e) := rfl
      rw [hstep, ih]
      cases e with
      | shot name =>
          rw [applyE_counter_shot]
          simp [countShots, List.countP_cons]
          omega
      | issue sev cat desc =>
          simp [applyE, countShots, List.countP_cons]
      | close =>
          simp [applyE, countShots, List.countP_cons]

/-- Claim C8: the screenshot counter is strictly increasing across the
entire run.  Every capture attempt increments it by exactly one; it is
never reset between stages or sessions - one SeatCoverQA object spans
all url x device sessions, and after a whole run, from the fresh
initial state, the counter equals the total number of capture attempts
of all its sessions put together; the numbers of the files written are
strictly increasing in write order, hence pairwise distinct, so the
counter-named files are globally unique within the run. -/
theorem screenshot_counter_strictly_increasing (sessions : List Env)
    (cap : Nat → Bool) :
    (applyAll cap (run_tests sessions) initState).shots.Pairwise (· < ·) ∧
    (applyAll cap (run_tests sessions) initState).shots.Nodup ∧
    (applyAll cap (run_tests sessions) initState).counter =
      countShots (run_tests sessions) ∧
    (∀ s name, (applyE cap s (Effect.shot name)).counter = s.counter + 1) := by
  have hinv : CounterInv (applyAll cap (run_tests sessions) initState) :=
    applyAll_inv cap _ initState ⟨List.Pairwise.nil, by intro n hn; cases hn⟩
  refine ⟨hinv.1, hinv.1.imp (fun hab => Nat.ne_of_lt hab), ?_,
    fun s name => applyE_counter_shot cap s name⟩
  rw [applyAll_counter]
  simp [initState]

end ShopifyQA
